import Mathlib

/-!
Shallow embedding of the favorites subsystem of the Mutual Fund API
(`src/app.py`, `src/validators.py`).

The document store is modelled as explicit lists of records; each Flask
handler becomes a pure function from its request inputs and a store state
to an HTTP response (envelope plus status code) and a resulting store
state.  A store state is `Except String Store`: `Except.error e` models a
store every access to which raises an exception with message `e`, so that
the `try/except` structure of each handler can be embedded faithfully
(the handler returns its `except`-branch response exactly when the store
is in the erroring state and the handler reaches a store access).
-/

namespace MfApi

/-- JSON-like values appearing in response envelopes. -/
inductive JVal : Type where
  | str : String → JVal
  | num : Nat → JVal
  | arr : List JVal → JVal
  | obj : List (String × JVal) → JVal
  deriving Repr

/-- A document in the `favorites` collection.  The collection is
schemaless, so the optional display-name field is modelled as
`Option String`: `none` means the field is absent from the document
(as in records inserted directly by the test suite), `some s` means the
field is present with value `s`.  `createdAt` is an abstract timestamp.
The store-assigned `_id` of a favorite is not observed by any favorites
operation and is abstracted away. -/
structure Favorite where
  userId : String
  itemId : String
  itemType : String
  itemName : Option String
  createdAt : Nat
  deriving Repr, DecidableEq

/-- A Mongo document `_id`: either a store-native ObjectId (carried as its
24-hex-character string form) or a plain string identifier. -/
inductive MongoId : Type where
  | oid : String → MongoId
  | strId : String → MongoId
  deriving Repr, DecidableEq

/-- The string form of an `_id`, as produced by Python `str(...)`. -/
def MongoId.toStr : MongoId → String
  | MongoId.oid h => h
  | MongoId.strId s => s

/-- A document in the `stocks` collection (fields beyond `_id` and `name`
are not observed by the favorites subsystem). -/
structure StockDoc where
  sid : MongoId
  name : String
  deriving Repr, DecidableEq

/-- A document in the `fund_holdings` collection: one dated holding
snapshot of the fund with business key `unique_id`. -/
structure FundDoc where
  fid : MongoId
  unique_id : String
  date : String
  deriving Repr, DecidableEq

/-- The store state: the collections read or written by the favorites
subsystem. -/
structure Store where
  favorites : List Favorite
  stocks : List StockDoc
  fund_holdings : List FundDoc
  deriving Repr, DecidableEq

/-- The JSON response envelope `{status, message, records?, count?, data?}`
built by `make_response` in `src/app.py`. -/
structure Envelope where
  status : String
  message : String
  records : Option JVal
  count : Option Nat
  data : Option JVal
  deriving Repr

/-- Mirror of the `make_response` helper. -/
def make_response (status message : String) (records : Option JVal)
    (count : Option Nat) (data : Option JVal) : Envelope :=
  ⟨status, message, records, count, data⟩

/-- An HTTP response: body envelope plus status code (Flask's default code
for a bare response is 200). -/
structure HttpResponse where
  body : Envelope
  code : Nat
  deriving Repr

/-- JSON body of a POST `/api/favorites` request; `none` marks an absent
field. -/
structure AddFavoritePayload where
  userId : Option String
  itemId : Option String
  itemType : Option String
  itemName : Option String
  deriving Repr, DecidableEq

/-- JSON body of a POST `/api/favorites/rpc/remove` request. -/
structure RemoveFavoritePayload where
  userId : Option String
  itemId : Option String
  itemType : Option String
  deriving Repr, DecidableEq

/-- The value mapping produced by a successful `AddFavoriteSchema.load`. -/
structure ValidatedAdd where
  userId : String
  itemId : String
  itemType : String
  itemName : Option String
  deriving Repr, DecidableEq

/-- The value mapping produced by a successful `RemoveFavoriteSchema.load`. -/
structure ValidatedRemove where
  userId : String
  itemId : String
  itemType : String
  deriving Repr, DecidableEq

/-- Marshmallow check for a required string field with `Length(min=1)`. -/
def checkRequiredStr (field : String) (v : Option String) :
    List (String × List String) :=
  match v with
  | none => [(field, ["Missing data for required field."])]
  | some s =>
    if s.length < 1 then [(field, ["Shorter than minimum length 1."])] else []

/-- Marshmallow check for the required `itemType` field with
`OneOf(["stock", "fund"])`. -/
def checkItemType (v : Option String) : List (String × List String) :=
  match v with
  | none => [("itemType", ["Missing data for required field."])]
  | some s =>
    if s = "stock" || s = "fund" then []
    else [("itemType", ["Must be one of: stock, fund."])]

/-- Marshmallow check for the optional `itemName` field with
`Length(max=500)`. -/
def checkItemName (v : Option String) : List (String × List String) :=
  match v with
  | none => []
  | some s =>
    if s.length ≤ 500 then []
    else [("itemName", ["Longer than maximum length 500."])]

/-- The per-field error report of `AddFavoriteSchema` on a payload. -/
def addFavoriteErrors (p : AddFavoritePayload) : List (String × List String) :=
  checkRequiredStr "userId" p.userId ++ checkRequiredStr "itemId" p.itemId ++
  checkItemType p.itemType ++ checkItemName p.itemName

/-- The per-field error report of `RemoveFavoriteSchema` on a payload. -/
def removeFavoriteErrors (p : RemoveFavoritePayload) :
    List (String × List String) :=
  checkRequiredStr "userId" p.userId ++ checkRequiredStr "itemId" p.itemId ++
  checkItemType p.itemType

/-- `validate_request_data(AddFavoriteSchema, data)`: either the validated
mapping or the per-field error report. -/
def validateAddFavorite (p : AddFavoritePayload) :
    Except (List (String × List String)) ValidatedAdd :=
  match p.userId, p.itemId, p.itemType with
  | some u, some i, some t =>
    if addFavoriteErrors p = [] then Except.ok ⟨u, i, t, p.itemName⟩
    else Except.error (addFavoriteErrors p)
  | _, _, _ => Except.error (addFavoriteErrors p)

/-- `validate_request_data(RemoveFavoriteSchema, data)`. -/
def validateRemoveFavorite (p : RemoveFavoritePayload) :
    Except (List (String × List String)) ValidatedRemove :=
  match p.userId, p.itemId, p.itemType with
  | some u, some i, some t =>
    if removeFavoriteErrors p = [] then Except.ok ⟨u, i, t⟩
    else Except.error (removeFavoriteErrors p)
  | _, _, _ => Except.error (removeFavoriteErrors p)

/-- The error report rendered as the `data` field of a 400 response. -/
def errsJson (errs : List (String × List String)) : JVal :=
  JVal.obj (errs.map (fun e => (e.1, JVal.arr (e.2.map JVal.str))))

/-- The Mongo filter `{userId: u, itemId: i, itemType: t}` on a favorite. -/
def matchesTriple (u i t : String) (f : Favorite) : Bool :=
  f.userId == u && f.itemId == i && f.itemType == t

/-- Mongo `delete_one`: removes the first matching document and reports
`deleted_count` (0 or 1). -/
def deleteOne (p : Favorite → Bool) : List Favorite → List Favorite × Nat
  | [] => ([], 0)
  | f :: rest =>
    if p f then (rest, 1)
    else ((f :: (deleteOne p rest).1), (deleteOne p rest).2)

/-- The created favorite rendered as the `data` field of the "Added"
response (with the store-assigned `_id` abstracted away). -/
def favJson (f : Favorite) : JVal :=
  JVal.obj [("userId", JVal.str f.userId), ("itemId", JVal.str f.itemId),
    ("itemType", JVal.str f.itemType),
    ("itemName", JVal.str (f.itemName.getD "")),
    ("createdAt", JVal.num f.createdAt)]

/-- Handler for POST `/api/favorites` (`add_favorite` in `src/app.py`),
also reached verbatim through POST `/api/favorites/rpc/add`.  `now` is the
current time used for `createdAt`. -/
def add_favorite (p : AddFavoritePayload) (now : Nat)
    (st : Except String Store) : HttpResponse × Except String Store :=
  match validateAddFavorite p with
  | Except.error errs =>
    (⟨make_response "error" "Validation error" none none (some (errsJson errs)),
      400⟩, st)
  | Except.ok vd =>
    match st with
    | Except.error e =>
      (⟨make_response "error" e none none none, 500⟩, Except.error e)
    | Except.ok s =>
      match s.favorites.find? (matchesTriple vd.userId vd.itemId vd.itemType) with
      | some _ =>
        (⟨make_response "success" "Already in favorites" none none none, 200⟩,
          Except.ok s)
      | none =>
        let fav : Favorite :=
          ⟨vd.userId, vd.itemId, vd.itemType, some (vd.itemName.getD ""), now⟩
        (⟨make_response "success" "Added" none none (some (favJson fav)), 200⟩,
          Except.ok { s with favorites := s.favorites ++ [fav] })

/-- One entry of a partition list built by `get_favorites`:
`{"id": itemId, "name": itemName-or-empty}`. -/
def favEntry (f : Favorite) : JVal :=
  JVal.obj [("id", JVal.str f.itemId), ("name", JVal.str (f.itemName.getD ""))]

/-- The Mongo query filter built by `get_favorites`: always on `userId`,
and on `itemType` only when the `type` query parameter is present and
non-empty (Python truthiness). -/
def getFavoritesFilter (u : String) (ty : Option String) (f : Favorite) :
    Bool :=
  f.userId == u &&
    (match ty with
     | none => true
     | some t => if t = "" then true else f.itemType == t)

/-- Handler for GET `/api/favorites?userId=&type=` (`get_favorites`).
Its `except` branch returns the error envelope with no explicit status
code, hence HTTP 200. -/
def get_favorites (userId ty : Option String) (st : Except String Store) :
    HttpResponse × Except String Store :=
  match userId with
  | none =>
    (⟨make_response "error" "userId required" none none none, 400⟩, st)
  | some u =>
    if u = "" then
      (⟨make_response "error" "userId required" none none none, 400⟩, st)
    else
      match st with
      | Except.error e =>
        (⟨make_response "error" e none none none, 200⟩, Except.error e)
      | Except.ok s =>
        let favs := s.favorites.filter (getFavoritesFilter u ty)
        let stocks_list :=
          (favs.filter (fun f => f.itemType == "stock")).map favEntry
        let funds_list :=
          (favs.filter (fun f => !(f.itemType == "stock"))).map favEntry
        (⟨make_response "success" "Favorites fetched" none (some favs.length)
            (some (JVal.obj [("stocks", JVal.arr stocks_list),
                             ("funds", JVal.arr funds_list)])), 200⟩,
          Except.ok s)

/-- Handler for DELETE `/api/favorites/{item_id}?userId=&type=`
(`remove_favorite`).  Its `except` branch returns the error envelope with
no explicit status code, hence HTTP 200. -/
def remove_favorite (item_id : String) (userId ty : Option String)
    (st : Except String Store) : HttpResponse × Except String Store :=
  match userId, ty with
  | some u, some t =>
    if u = "" || t = "" then
      (⟨make_response "error" "userId and type required" none none none, 400⟩,
        st)
    else
      match st with
      | Except.error e =>
        (⟨make_response "error" e none none none, 200⟩, Except.error e)
      | Except.ok s =>
        let res := deleteOne (matchesTriple u item_id t) s.favorites
        if res.2 = 0 then
          (⟨make_response "error" "Favorite not found" none none none, 404⟩,
            Except.ok { s with favorites := res.1 })
        else
          (⟨make_response "success" "Removed" none none none, 200⟩,
            Except.ok { s with favorites := res.1 })
  | _, _ =>
    (⟨make_response "error" "userId and type required" none none none, 400⟩,
      st)

/-- Handler for POST `/api/favorites/rpc/remove` (`remove_favorite_rpc`).
Its `except` branch returns the error envelope with explicit status 500. -/
def remove_favorite_rpc (p : RemoveFavoritePayload)
    (st : Except String Store) : HttpResponse × Except String Store :=
  match validateRemoveFavorite p with
  | Except.error errs =>
    (⟨make_response "error" "Validation error" none none (some (errsJson errs)),
      400⟩, st)
  | Except.ok vd =>
    match st with
    | Except.error e =>
      (⟨make_response "error" e none none none, 500⟩, Except.error e)
    | Except.ok s =>
      let res := deleteOne (matchesTriple vd.userId vd.itemId vd.itemType)
        s.favorites
      if res.2 = 0 then
        (⟨make_response "error" "Favorite not found" none none none, 404⟩,
          Except.ok { s with favorites := res.1 })
      else
        (⟨make_response "success" "Removed" none none none, 200⟩,
          Except.ok { s with favorites := res.1 })

/-- A character valid in a hexadecimal ObjectId string. -/
def isHexChar (c : Char) : Bool :=
  c.isDigit || (('a' ≤ c) && (c ≤ 'f')) || (('A' ≤ c) && (c ≤ 'F'))

/-- `ObjectId(s)` succeeds exactly when `s` is a 24-character hex string. -/
def isValidObjectId (s : String) : Bool :=
  s.length == 24 && s.toList.all isHexChar

/-- A stock document rendered for the `records` field (after the handler
replaces `_id` by its string form). -/
def stockJson (d : StockDoc) : JVal :=
  JVal.obj [("_id", JVal.str d.sid.toStr), ("name", JVal.str d.name)]

/-- A fund-holdings document rendered for the `records` field. -/
def fundJson (d : FundDoc) : JVal :=
  JVal.obj [("_id", JVal.str d.fid.toStr), ("unique_id", JVal.str d.unique_id),
    ("date", JVal.str d.date)]

/-- The itemIds of a user's stock-type favorites, in store order
(`favs = favorites.find({userId, itemType: "stock"})` then
`ids = [f["itemId"] for f in favs]`). -/
def stockFavIds (u : String) (s : Store) : List String :=
  (s.favorites.filter (fun f => f.userId == u && f.itemType == "stock")).map
    (fun f => f.itemId)

/-- The itemIds of a user's fund-type favorites, in store order. -/
def fundFavIds (u : String) (s : Store) : List String :=
  (s.favorites.filter (fun f => f.userId == u && f.itemType == "fund")).map
    (fun f => f.itemId)

/-- The query `stocks.find({"_id": {"$in": obj_ids}})` with ObjectId keys. -/
def stocksByOid (stks : List StockDoc) (ids : List String) : List StockDoc :=
  stks.filter (fun d => ids.any (fun i => d.sid == MongoId.oid i))

/-- The fallback query `stocks.find({"_id": {"$in": ids}})` with plain
string keys. -/
def stocksByStr (stks : List StockDoc) (ids : List String) : List StockDoc :=
  stks.filter (fun d => ids.any (fun i => d.sid == MongoId.strId i))

/-- The query `fund_holdings.find({"unique_id": {"$in": fund_ids}})`. -/
def fundsByUid (fnds : List FundDoc) (ids : List String) : List FundDoc :=
  fnds.filter (fun d => ids.any (fun i => d.unique_id == i))

/-- Handler for GET `/api/favorites/stocks?userId=` (`get_favorite_stocks`).
The inner `try` converts every favorite itemId to an ObjectId and queries
by those; if any conversion fails, the bare `except:` falls back to one
query treating all ids as plain strings.  The outer `except` branch
returns the error envelope with no explicit status code, hence HTTP 200. -/
def get_favorite_stocks (userId : Option String) (st : Except String Store) :
    HttpResponse × Except String Store :=
  match userId with
  | none =>
    (⟨make_response "error" "userId required" none none none, 400⟩, st)
  | some u =>
    if u = "" then
      (⟨make_response "error" "userId required" none none none, 400⟩, st)
    else
      match st with
      | Except.error e =>
        (⟨make_response "error" e none none none, 200⟩, Except.error e)
      | Except.ok s =>
        let ids := stockFavIds u s
        if ids.isEmpty then
          (⟨make_response "success" "No favorites" (some (JVal.arr []))
              (some 0) none, 200⟩, Except.ok s)
        else
          let results :=
            if ids.all isValidObjectId then stocksByOid s.stocks ids
            else stocksByStr s.stocks ids
          (⟨make_response "success" "Favorite stocks fetched"
              (some (JVal.arr (results.map stockJson)))
              (some results.length) none, 200⟩, Except.ok s)

/-- Handler for GET `/api/favorites/funds?userId=` (`get_favorite_funds`).
Fund favorites are resolved by business key: the query matches every
`fund_holdings` document whose `unique_id` is among the favorite ids.
The `except` branch returns the error envelope with no explicit status
code, hence HTTP 200. -/
def get_favorite_funds (userId : Option String) (st : Except String Store) :
    HttpResponse × Except String Store :=
  match userId with
  | none =>
    (⟨make_response "error" "userId required" none none none, 400⟩, st)
  | some u =>
    if u = "" then
      (⟨make_response "error" "userId required" none none none, 400⟩, st)
    else
      match st with
      | Except.error e =>
        (⟨make_response "error" e none none none, 200⟩, Except.error e)
      | Except.ok s =>
        let fund_ids := fundFavIds u s
        if fund_ids.isEmpty then
          (⟨make_response "success" "No favorites" (some (JVal.arr []))
              (some 0) none, 200⟩, Except.ok s)
        else
          let results := fundsByUid s.fund_holdings fund_ids
          (⟨make_response "success" "Favorite funds fetched"
              (some (JVal.arr (results.map fundJson)))
              (some results.length) none, 200⟩, Except.ok s)

/-- One invocation of a favorites operation, for reachability statements. -/
inductive FavOp : Type where
  | addOp : AddFavoritePayload → Nat → FavOp
  | removeRestOp : String → Option String → Option String → FavOp
  | removeRpcOp : RemoveFavoritePayload → FavOp
  | listOp : Option String → Option String → FavOp
  | resolveStocksOp : Option String → FavOp
  | resolveFundsOp : Option String → FavOp

/-- Extract the store from a handler result, given a normal input state. -/
def storeOf (st : Except String Store) (dflt : Store) : Store :=
  match st with
  | Except.ok s => s
  | Except.error _ => dflt

/-- The store effect of one favorites operation on a normal store state. -/
def stepOp (s : Store) : FavOp → Store
  | FavOp.addOp p now => storeOf (add_favorite p now (Except.ok s)).2 s
  | FavOp.removeRestOp i u t => storeOf (remove_favorite i u t (Except.ok s)).2 s
  | FavOp.removeRpcOp p => storeOf (remove_favorite_rpc p (Except.ok s)).2 s
  | FavOp.listOp u t => storeOf (get_favorites u t (Except.ok s)).2 s
  | FavOp.resolveStocksOp u => storeOf (get_favorite_stocks u (Except.ok s)).2 s
  | FavOp.resolveFundsOp u => storeOf (get_favorite_funds u (Except.ok s)).2 s

/-- Sequential execution of favorites operations from a store state. -/
def execOps (s : Store) : List FavOp → Store
  | [] => s
  | op :: rest => execOps (stepOp s op) rest

/-- The key triple of a favorite, unique by the store-level index. -/
def tripleKey (f : Favorite) : String × String × String :=
  (f.userId, f.itemId, f.itemType)

/-- The uniqueness invariant: at most one favorite per (userId, itemId,
itemType) triple. -/
def UniqueTriples (s : Store) : Prop :=
  (s.favorites.map tripleKey).Nodup

/-- A non-empty string fails the marshmallow `length < 1` test. -/
theorem not_length_lt_one (s : String) (h : s ≠ "") : ¬(s.length < 1) := by
  cases s with
  | mk data =>
    cases data with
    | nil => exact absurd rfl h
    | cons c cs => simp [String.length]

/-- A present non-empty string passes a required-string check. -/
theorem checkRequiredStr_valid (fl s : String) (h : s ≠ "") :
    checkRequiredStr fl (some s) = [] := by
  simp [checkRequiredStr, not_length_lt_one s h]

/-- A member of the enum passes the `itemType` check. -/
theorem checkItemType_valid (t : String) (ht : t = "stock" ∨ t = "fund") :
    checkItemType (some t) = [] := by
  rcases ht with h | h <;> simp [checkItemType, h]

/-- An absent or short-enough name passes the `itemName` check. -/
theorem checkItemName_valid (nm : Option String)
    (hnm : ∀ n ∈ nm, n.length ≤ 500) : checkItemName nm = [] := by
  cases nm with
  | none => rfl
  | some n => simp [checkItemName, hnm n rfl]

/-- A valid add payload produces an empty error report. -/
theorem addFavoriteErrors_valid (u i t : String) (nm : Option String)
    (hu : u ≠ "") (hi : i ≠ "") (ht : t = "stock" ∨ t = "fund")
    (hnm : ∀ n ∈ nm, n.length ≤ 500) :
    addFavoriteErrors ⟨some u, some i, some t, nm⟩ = [] := by
  simp [addFavoriteErrors, checkRequiredStr_valid _ u hu,
    checkRequiredStr_valid _ i hi, checkItemType_valid t ht,
    checkItemName_valid nm hnm]

/-- A valid remove payload produces an empty error report. -/
theorem removeFavoriteErrors_valid (u i t : String)
    (hu : u ≠ "") (hi : i ≠ "") (ht : t = "stock" ∨ t = "fund") :
    removeFavoriteErrors ⟨some u, some i, some t⟩ = [] := by
  simp [removeFavoriteErrors, checkRequiredStr_valid _ u hu,
    checkRequiredStr_valid _ i hi, checkItemType_valid t ht]

/-- `AddFavoriteSchema.load` succeeds on a valid payload. -/
theorem validateAddFavorite_ok (u i t : String) (nm : Option String)
    (hu : u ≠ "") (hi : i ≠ "") (ht : t = "stock" ∨ t = "fund")
    (hnm : ∀ n ∈ nm, n.length ≤ 500) :
    validateAddFavorite ⟨some u, some i, some t, nm⟩ =
      Except.ok ⟨u, i, t, nm⟩ := by
  simp [validateAddFavorite, addFavoriteErrors_valid u i t nm hu hi ht hnm]

/-- `RemoveFavoriteSchema.load` succeeds on a valid payload. -/
theorem validateRemoveFavorite_ok (u i t : String)
    (hu : u ≠ "") (hi : i ≠ "") (ht : t = "stock" ∨ t = "fund") :
    validateRemoveFavorite ⟨some u, some i, some t⟩ =
      Except.ok ⟨u, i, t⟩ := by
  simp [validateRemoveFavorite, removeFavoriteErrors_valid u i t hu hi ht]

/-- `AddFavoriteSchema.load` fails with the full error report on an
invalid payload. -/
theorem validateAddFavorite_err (p : AddFavoritePayload)
    (h : addFavoriteErrors p ≠ []) :
    validateAddFavorite p = Except.error (addFavoriteErrors p) := by
  obtain ⟨u, i, t, nm⟩ := p
  cases u <;> cases i <;> cases t <;> simp [validateAddFavorite, h]

/-- `RemoveFavoriteSchema.load` fails with the full error report on an
invalid payload. -/
theorem validateRemoveFavorite_err (p : RemoveFavoritePayload)
    (h : removeFavoriteErrors p ≠ []) :
    validateRemoveFavorite p = Except.error (removeFavoriteErrors p) := by
  obtain ⟨u, i, t⟩ := p
  cases u <;> cases i <;> cases t <;> simp [validateRemoveFavorite, h]

/-- The freshly inserted favorite matches its own triple filter. -/
theorem matchesTriple_self (u i t : String) (nm : Option String) (now : Nat) :
    matchesTriple u i t ⟨u, i, t, nm, now⟩ = true := by
  simp [matchesTriple]

/-- Claim C1: for every valid triple with no pre-existing record, calling
AddFavorite twice in sequence leaves exactly one stored Favorite record
for that triple; the first call returns status "success" with message
"Added", and the second call performs no write (the store is returned
unchanged) and returns status "success" with message
"Already in favorites". -/
theorem C1_add_favorite_idempotent (u i t : String) (nm : Option String)
    (now1 now2 : Nat) (s : Store)
    (hu : u ≠ "") (hi : i ≠ "") (ht : t = "stock" ∨ t = "fund")
    (hnm : ∀ n ∈ nm, n.length ≤ 500)
    (hfresh : s.favorites.find? (matchesTriple u i t) = none) :
    ∃ s1 : Store,
      add_favorite ⟨some u, some i, some t, nm⟩ now1 (Except.ok s) =
        (⟨make_response "success" "Added" none none
            (some (favJson ⟨u, i, t, some (nm.getD ""), now1⟩)), 200⟩,
          Except.ok s1) ∧
      add_favorite ⟨some u, some i, some t, nm⟩ now2 (Except.ok s1) =
        (⟨make_response "success" "Already in favorites" none none none,
            200⟩, Except.ok s1) ∧
      (s1.favorites.filter (matchesTriple u i t)).length = 1 := by
  have hv := validateAddFavorite_ok u i t nm hu hi ht hnm
  have hm := matchesTriple_self u i t (some (nm.getD "")) now1
  refine ⟨{ s with favorites :=
    s.favorites ++ [⟨u, i, t, some (nm.getD ""), now1⟩] }, ?_, ?_, ?_⟩
  · simp only [add_favorite, hv, hfresh]
  · have hfind :
        (s.favorites ++
            ([⟨u, i, t, some (nm.getD ""), now1⟩] : List Favorite)).find?
          (matchesTriple u i t) = some ⟨u, i, t, some (nm.getD ""), now1⟩ := by
      rw [List.find?_append, hfresh, Option.none_or]
      simp only [List.find?, hm]
    simp only [add_favorite, hv, hfind]
  · have h0 : s.favorites.filter (matchesTriple u i t) = [] :=
      List.filter_eq_nil_iff.mpr (fun a ha => by
        simpa using List.find?_eq_none.mp hfresh a ha)
    simp [List.filter_append, h0, hm]

/-- Witness for C1 at a concrete input. -/
theorem C1_add_favorite_idempotent_witness :
    ("u1" : String) ≠ "" ∧ ("s1" : String) ≠ "" ∧
    (("stock" : String) = "stock" ∨ ("stock" : String) = "fund") ∧
    (∀ n ∈ (none : Option String), n.length ≤ 500) ∧
    (Store.favorites ⟨[], [], []⟩).find? (matchesTriple "u1" "s1" "stock")
      = none ∧
    (∃ s1 : Store,
      add_favorite ⟨some "u1", some "s1", some "stock", none⟩ 0
          (Except.ok ⟨[], [], []⟩) =
        (⟨make_response "success" "Added" none none
            (some (favJson ⟨"u1", "s1", "stock",
              some ((none : Option String).getD ""), 0⟩)), 200⟩,
          Except.ok s1) ∧
      add_favorite ⟨some "u1", some "s1", some "stock", none⟩ 1
          (Except.ok s1) =
        (⟨make_response "success" "Already in favorites" none none none,
            200⟩, Except.ok s1) ∧
      (s1.favorites.filter (matchesTriple "u1" "s1" "stock")).length = 1) :=
  ⟨by decide, by decide, Or.inl rfl, by simp, rfl,
    C1_add_favorite_idempotent "u1" "s1" "stock" none 0 1 ⟨[], [], []⟩
      (by decide) (by decide) (Or.inl rfl) (by simp) rfl⟩

/-- Claim C10: a favorite created by AddFavorite always carries an
`itemName` field: when the request omits the optional `itemName`, the
record is stored with `itemName` present and equal to the empty string,
never with the field absent. -/
theorem C10_created_record_has_itemName (u i t : String) (nm : Option String)
    (now : Nat) (s : Store)
    (hu : u ≠ "") (hi : i ≠ "") (ht : t = "stock" ∨ t = "fund")
    (hnm : ∀ n ∈ nm, n.length ≤ 500)
    (hfresh : s.favorites.find? (matchesTriple u i t) = none) :
    ∃ f : Favorite,
      (add_favorite ⟨some u, some i, some t, nm⟩ now (Except.ok s)).2 =
        Except.ok { s with favorites := s.favorites ++ [f] } ∧
      f.itemName = some (nm.getD "") ∧ f.itemName ≠ none ∧
      (nm = none → f.itemName = some "") := by
  have hv := validateAddFavorite_ok u i t nm hu hi ht hnm
  refine ⟨⟨u, i, t, some (nm.getD ""), now⟩, ?_, rfl, by simp, ?_⟩
  · simp [add_favorite, hv, hfresh]
  · intro h; subst h; rfl

/-- Witness for C10 at a concrete input. -/
theorem C10_created_record_has_itemName_witness :
    ("u1" : String) ≠ "" ∧ ("s1" : String) ≠ "" ∧
    (("stock" : String) = "stock" ∨ ("stock" : String) = "fund") ∧
    (∀ n ∈ (none : Option String), n.length ≤ 500) ∧
    (Store.favorites ⟨[], [], []⟩).find? (matchesTriple "u1" "s1" "stock")
      = none ∧
    (∃ f : Favorite,
      (add_favorite ⟨some "u1", some "s1", some "stock", none⟩ 0
          (Except.ok ⟨[], [], []⟩)).2 =
        Except.ok { Store.mk [] [] [] with
          favorites := (Store.mk [] [] []).favorites ++ [f] } ∧
      f.itemName = some ((none : Option String).getD "") ∧
      f.itemName ≠ none ∧
      ((none : Option String) = none → f.itemName = some "")) :=
  ⟨by decide, by decide, Or.inl rfl, by simp, rfl,
    C10_created_record_has_itemName "u1" "s1" "stock" none 0 ⟨[], [], []⟩
      (by decide) (by decide) (Or.inl rfl) (by simp) rfl⟩

/-- Claim C6: a payload that fails schema validation makes AddFavorite and
RPC RemoveFavorite return a 400 response with the per-field error report
under the envelope's `data` field, and the store state is passed through
untouched — the response and resulting state are the same for every store
state, including an erroring one, so the store is never accessed. -/
theorem C6_validation_short_circuits (p : AddFavoritePayload)
    (q : RemoveFavoritePayload) (now : Nat) (st : Except String Store)
    (hp : addFavoriteErrors p ≠ []) (hq : removeFavoriteErrors q ≠ []) :
    add_favorite p now st =
      (⟨make_response "error" "Validation error" none none
          (some (errsJson (addFavoriteErrors p))), 400⟩, st) ∧
    remove_favorite_rpc q st =
      (⟨make_response "error" "Validation error" none none
          (some (errsJson (removeFavoriteErrors q))), 400⟩, st) := by
  constructor
  · simp [add_favorite, validateAddFavorite_err p hp]
  · simp [remove_favorite_rpc, validateRemoveFavorite_err q hq]

/-- Witness for C6 at a concrete input: an empty `userId` together with an
`itemType` outside the enum, and a missing `userId` with an empty
`itemId`, against the erroring store state. -/
theorem C6_validation_short_circuits_witness :
    addFavoriteErrors ⟨some "", some "s1", some "bond", none⟩ ≠ [] ∧
    removeFavoriteErrors ⟨none, some "", some "fund"⟩ ≠ [] ∧
    (add_favorite ⟨some "", some "s1", some "bond", none⟩ 0
        (Except.error "store down") =
      (⟨make_response "error" "Validation error" none none
          (some (errsJson
            (addFavoriteErrors ⟨some "", some "s1", some "bond", none⟩))),
        400⟩, Except.error "store down") ∧
    remove_favorite_rpc ⟨none, some "", some "fund"⟩
        (Except.error "store down") =
      (⟨make_response "error" "Validation error" none none
          (some (errsJson
            (removeFavoriteErrors ⟨none, some "", some "fund"⟩))),
        400⟩, Except.error "store down")) :=
  ⟨by decide, by decide,
    C6_validation_short_circuits ⟨some "", some "s1", some "bond", none⟩
      ⟨none, some "", some "fund"⟩ 0 (Except.error "store down")
      (by decide) (by decide)⟩

/-- Counterexample to claim C7: a store failure during ListFavorites is
caught and reported in an error envelope, but the HTTP status code is the
Flask default 200, not 500 — `get_favorites` returns its `except`-branch
response without an explicit status code. -/
theorem C7_counterexample :
    (get_favorites (some "u1") none (Except.error "store down")).1.body.status
      = "error" ∧
    (get_favorites (some "u1") none (Except.error "store down")).1.body.message
      = "store down" ∧
    (get_favorites (some "u1") none (Except.error "store down")).1.code
      = 200 ∧
    (200 : Nat) ≠ 500 :=
  ⟨rfl, rfl, rfl, by decide⟩

/-- Claim C7 as amended: when a store failure with description `e` occurs
during execution, every favorites operation catches it and returns an
error envelope whose message carries `e` (the operation is a total
function, so no failure escapes as a crash); AddFavorite and RPC
RemoveFavorite return HTTP 500, while ListFavorites, REST RemoveFavorite,
ResolveFavoriteStocks and ResolveFavoriteFunds return their error
envelope with the Flask default HTTP 200. -/
theorem C7_amended_store_failure (e : String) (p : AddFavoritePayload)
    (vp : ValidatedAdd) (q : RemoveFavoritePayload) (vq : ValidatedRemove)
    (now : Nat) (u i t : String) (ty : Option String)
    (hp : validateAddFavorite p = Except.ok vp)
    (hq : validateRemoveFavorite q = Except.ok vq)
    (hu : u ≠ "") (ht : t ≠ "") :
    add_favorite p now (Except.error e) =
      (⟨make_response "error" e none none none, 500⟩, Except.error e) ∧
    remove_favorite_rpc q (Except.error e) =
      (⟨make_response "error" e none none none, 500⟩, Except.error e) ∧
    get_favorites (some u) ty (Except.error e) =
      (⟨make_response "error" e none none none, 200⟩, Except.error e) ∧
    remove_favorite i (some u) (some t) (Except.error e) =
      (⟨make_response "error" e none none none, 200⟩, Except.error e) ∧
    get_favorite_stocks (some u) (Except.error e) =
      (⟨make_response "error" e none none none, 200⟩, Except.error e) ∧
    get_favorite_funds (some u) (Except.error e) =
      (⟨make_response "error" e none none none, 200⟩, Except.error e) := by
  refine ⟨?_, ?_, ?_, ?_, ?_, ?_⟩
  · simp only [add_favorite, hp]
  · simp only [remove_favorite_rpc, hq]
  · simp [get_favorites, hu]
  · simp [remove_favorite, hu, ht]
  · simp [get_favorite_stocks, hu]
  · simp [get_favorite_funds, hu]

/-- Witness for the amended C7 at a concrete input. -/
theorem C7_amended_store_failure_witness :
    validateAddFavorite ⟨some "u1", some "s1", some "stock", none⟩ =
      Except.ok ⟨"u1", "s1", "stock", none⟩ ∧
    validateRemoveFavorite ⟨some "u1", some "f1", some "fund"⟩ =
      Except.ok ⟨"u1", "f1", "fund"⟩ ∧
    ("u1" : String) ≠ "" ∧ ("stock" : String) ≠ "" ∧
    (add_favorite ⟨some "u1", some "s1", some "stock", none⟩ 0
        (Except.error "boom") =
      (⟨make_response "error" "boom" none none none, 500⟩,
        Except.error "boom") ∧
    remove_favorite_rpc ⟨some "u1", some "f1", some "fund"⟩
        (Except.error "boom") =
      (⟨make_response "error" "boom" none none none, 500⟩,
        Except.error "boom") ∧
    get_favorites (some "u1") none (Except.error "boom") =
      (⟨make_response "error" "boom" none none none, 200⟩,
        Except.error "boom") ∧
    remove_favorite "s1" (some "u1") (some "stock") (Except.error "boom") =
      (⟨make_response "error" "boom" none none none, 200⟩,
        Except.error "boom") ∧
    get_favorite_stocks (some "u1") (Except.error "boom") =
      (⟨make_response "error" "boom" none none none, 200⟩,
        Except.error "boom") ∧
    get_favorite_funds (some "u1") (Except.error "boom") =
      (⟨make_response "error" "boom" none none none, 200⟩,
        Except.error "boom")) :=
  ⟨rfl, rfl, by decide, by decide,
    C7_amended_store_failure "boom" ⟨some "u1", some "s1", some "stock", none⟩
      ⟨"u1", "s1", "stock", none⟩ ⟨some "u1", some "f1", some "fund"⟩
      ⟨"u1", "f1", "fund"⟩ 0 "u1" "s1" "stock" none
      rfl rfl (by decide) (by decide)⟩

/-- Counterexample to claim C5: for the input triple
("u1", "i1", "bond") on the empty store, the REST-style delete passes its
parameter check and answers 404 "Favorite not found", while the RPC-style
remove rejects the body at validation with 400 — the two entry points do
not produce identical responses for every input triple. -/
theorem C5_counterexample :
    (remove_favorite "i1" (some "u1") (some "bond")
        (Except.ok ⟨[], [], []⟩)).1.code = 404 ∧
    (remove_favorite "i1" (some "u1") (some "bond")
        (Except.ok ⟨[], [], []⟩)).1.body.message = "Favorite not found" ∧
    (remove_favorite_rpc ⟨some "u1", some "i1", some "bond"⟩
        (Except.ok ⟨[], [], []⟩)).1.code = 400 ∧
    (remove_favorite_rpc ⟨some "u1", some "i1", some "bond"⟩
        (Except.ok ⟨[], [], []⟩)).1.body.message = "Validation error" ∧
    (404 : Nat) ≠ 400 :=
  ⟨rfl, rfl, rfl, rfl, by decide⟩

/-- Claim C5 as amended: for every triple that satisfies the remove
schema (non-empty userId and itemId, itemType in {stock, fund}) and every
normal starting store state, the REST-style and RPC-style remove
endpoints produce identical store effects and identical responses
(envelope and HTTP status code alike). -/
theorem C5_amended_remove_endpoints_agree (u i t : String) (s : Store)
    (hu : u ≠ "") (hi : i ≠ "") (ht : t = "stock" ∨ t = "fund") :
    remove_favorite i (some u) (some t) (Except.ok s) =
      remove_favorite_rpc ⟨some u, some i, some t⟩ (Except.ok s) := by
  have hv := validateRemoveFavorite_ok u i t hu hi ht
  have ht2 : t ≠ "" := by rcases ht with h | h <;> simp [h]
  simp only [remove_favorite, remove_favorite_rpc, hv, hu, ht2]
  simp [hu, ht2]

/-- Witness for the amended C5 at a concrete input. -/
theorem C5_amended_remove_endpoints_agree_witness :
    ("u1" : String) ≠ "" ∧ ("x1" : String) ≠ "" ∧
    (("stock" : String) = "stock" ∨ ("stock" : String) = "fund") ∧
    remove_favorite "x1" (some "u1") (some "stock")
        (Except.ok ⟨[⟨"u1", "x1", "stock", some "A", 0⟩], [], []⟩) =
      remove_favorite_rpc ⟨some "u1", some "x1", some "stock"⟩
        (Except.ok ⟨[⟨"u1", "x1", "stock", some "A", 0⟩], [], []⟩) :=
  ⟨by decide, by decide, Or.inl rfl,
    C5_amended_remove_endpoints_agree "u1" "x1" "stock"
      ⟨[⟨"u1", "x1", "stock", some "A", 0⟩], [], []⟩
      (by decide) (by decide) (Or.inl rfl)⟩

/-- With no `type` query parameter, the list filter is just the userId
match. -/
theorem getFavoritesFilter_none (u : String) :
    getFavoritesFilter u none = fun f => f.userId == u := by
  funext f
  simp [getFavoritesFilter]

/-- Claim C4: for a user whose stored favorites consist of N records with
itemType exactly "stock" and M records with any other itemType,
ListFavorites returns exactly N entries in the "stocks" list and M
entries in the "funds" list, each entry being the reduction
`{id: itemId, name: itemName-or-empty}` of a favorite, and the returned
count equals N+M, the total number of underlying Favorite records. -/
theorem C4_list_partition (u : String) (s : Store) (hu : u ≠ "") :
    ∃ SL FL : List JVal,
      (get_favorites (some u) none (Except.ok s)).1 =
        ⟨make_response "success" "Favorites fetched" none
          (some (SL.length + FL.length))
          (some (JVal.obj [("stocks", JVal.arr SL), ("funds", JVal.arr FL)])),
          200⟩ ∧
      SL = ((s.favorites.filter (fun f => f.userId == u)).filter
              (fun f => f.itemType == "stock")).map favEntry ∧
      FL = ((s.favorites.filter (fun f => f.userId == u)).filter
              (fun f => !(f.itemType == "stock"))).map favEntry ∧
      SL.length = ((s.favorites.filter (fun f => f.userId == u)).filter
              (fun f => f.itemType == "stock")).length ∧
      FL.length = ((s.favorites.filter (fun f => f.userId == u)).filter
              (fun f => !(f.itemType == "stock"))).length := by
  refine ⟨((s.favorites.filter (fun f => f.userId == u)).filter
            (fun f => f.itemType == "stock")).map favEntry,
          ((s.favorites.filter (fun f => f.userId == u)).filter
            (fun f => !(f.itemType == "stock"))).map favEntry,
          ?_, rfl, rfl, List.length_map _ _, List.length_map _ _⟩
  have hsplit : (s.favorites.filter (fun f => f.userId == u)).length =
      ((s.favorites.filter (fun f => f.userId == u)).filter
        (fun f => f.itemType == "stock")).length +
      ((s.favorites.filter (fun f => f.userId == u)).filter
        (fun f => !(f.itemType == "stock"))).length :=
    List.length_eq_length_filter_add _
  simp only [get_favorites, getFavoritesFilter_none u]
  rw [if_neg hu]
  simp only [List.length_map]
  rw [← hsplit]

/-- Witness for C4 at a concrete input: one stock favorite and one fund
favorite of the user, plus a favorite of another user. -/
theorem C4_list_partition_witness :
    ("u1" : String) ≠ "" ∧
    (∃ SL FL : List JVal,
      (get_favorites (some "u1") none (Except.ok
        ⟨[⟨"u1", "s1", "stock", some "A", 0⟩, ⟨"u1", "f1", "fund", none, 1⟩,
          ⟨"u2", "s1", "stock", none, 2⟩], [], []⟩)).1 =
        ⟨make_response "success" "Favorites fetched" none
          (some (SL.length + FL.length))
          (some (JVal.obj [("stocks", JVal.arr SL), ("funds", JVal.arr FL)])),
          200⟩ ∧
      SL = (((Store.favorites
          ⟨[⟨"u1", "s1", "stock", some "A", 0⟩, ⟨"u1", "f1", "fund", none, 1⟩,
            ⟨"u2", "s1", "stock", none, 2⟩], [], []⟩).filter
              (fun f => f.userId == "u1")).filter
              (fun f => f.itemType == "stock")).map favEntry ∧
      FL = (((Store.favorites
          ⟨[⟨"u1", "s1", "stock", some "A", 0⟩, ⟨"u1", "f1", "fund", none, 1⟩,
            ⟨"u2", "s1", "stock", none, 2⟩], [], []⟩).filter
              (fun f => f.userId == "u1")).filter
              (fun f => !(f.itemType == "stock"))).map favEntry ∧
      SL.length = (((Store.favorites
          ⟨[⟨"u1", "s1", "stock", some "A", 0⟩, ⟨"u1", "f1", "fund", none, 1⟩,
            ⟨"u2", "s1", "stock", none, 2⟩], [], []⟩).filter
              (fun f => f.userId == "u1")).filter
              (fun f => f.itemType == "stock")).length ∧
      FL.length = (((Store.favorites
          ⟨[⟨"u1", "s1", "stock", some "A", 0⟩, ⟨"u1", "f1", "fund", none, 1⟩,
            ⟨"u2", "s1", "stock", none, 2⟩], [], []⟩).filter
              (fun f => f.userId == "u1")).filter
              (fun f => !(f.itemType == "stock"))).length) :=
  ⟨by decide,
    C4_list_partition "u1"
      ⟨[⟨"u1", "s1", "stock", some "A", 0⟩, ⟨"u1", "f1", "fund", none, 1⟩,
        ⟨"u2", "s1", "stock", none, 2⟩], [], []⟩ (by decide)⟩

/-- Claim C8: for a non-empty list of favorite stock itemIds, the lookup
queries by store-native ObjectId when every id converts, and if the
conversion fails for any single id, all ids (not just the failing ones)
are queried as raw string identifiers in a single fallback query. -/
theorem C8_resolve_stocks_fallback (u : String) (s : Store) (hu : u ≠ "")
    (hne : stockFavIds u s ≠ []) :
    ((stockFavIds u s).all isValidObjectId = true →
      (get_favorite_stocks (some u) (Except.ok s)).1 =
        ⟨make_response "success" "Favorite stocks fetched"
          (some (JVal.arr
            ((stocksByOid s.stocks (stockFavIds u s)).map stockJson)))
          (some (stocksByOid s.stocks (stockFavIds u s)).length) none,
          200⟩) ∧
    ((∃ b ∈ stockFavIds u s, isValidObjectId b = false) →
      (get_favorite_stocks (some u) (Except.ok s)).1 =
        ⟨make_response "success" "Favorite stocks fetched"
          (some (JVal.arr
            ((stocksByStr s.stocks (stockFavIds u s)).map stockJson)))
          (some (stocksByStr s.stocks (stockFavIds u s)).length) none,
          200⟩) := by
  have hempty : (stockFavIds u s).isEmpty = false := by
    cases h : stockFavIds u s with
    | nil => exact absurd h hne
    | cons a as => rfl
  constructor
  · intro hall
    simp only [get_favorite_stocks]
    rw [if_neg hu]
    simp only [hempty, Bool.false_eq_true, if_false, hall, if_true]
  · intro hex
    have hall : (stockFavIds u s).all isValidObjectId = false := by
      obtain ⟨b, hb, hbf⟩ := hex
      rw [List.all_eq_false]
      exact ⟨b, hb, by simp [hbf]⟩
    simp only [get_favorite_stocks]
    rw [if_neg hu]
    simp only [hempty, Bool.false_eq_true, if_false, hall]

/-- Witness for C8 at a concrete input: the single favorite id
"RELIANCE" is not a 24-hex ObjectId, so the string fallback is taken. -/
theorem C8_resolve_stocks_fallback_witness :
    ("u1" : String) ≠ "" ∧
    stockFavIds "u1"
      ⟨[⟨"u1", "RELIANCE", "stock", none, 0⟩], [],  []⟩ ≠ [] ∧
    (((stockFavIds "u1"
        ⟨[⟨"u1", "RELIANCE", "stock", none, 0⟩], [], []⟩).all isValidObjectId
          = true →
      (get_favorite_stocks (some "u1") (Except.ok
        ⟨[⟨"u1", "RELIANCE", "stock", none, 0⟩], [], []⟩)).1 =
        ⟨make_response "success" "Favorite stocks fetched"
          (some (JVal.arr
            ((stocksByOid [] (stockFavIds "u1"
              ⟨[⟨"u1", "RELIANCE", "stock", none, 0⟩], [], []⟩)).map
                stockJson)))
          (some (stocksByOid [] (stockFavIds "u1"
            ⟨[⟨"u1", "RELIANCE", "stock", none, 0⟩], [], []⟩)).length) none,
          200⟩) ∧
    ((∃ b ∈ stockFavIds "u1"
        ⟨[⟨"u1", "RELIANCE", "stock", none, 0⟩], [], []⟩,
        isValidObjectId b = false) →
      (get_favorite_stocks (some "u1") (Except.ok
        ⟨[⟨"u1", "RELIANCE", "stock", none, 0⟩], [], []⟩)).1 =
        ⟨make_response "success" "Favorite stocks fetched"
          (some (JVal.arr
            ((stocksByStr [] (stockFavIds "u1"
              ⟨[⟨"u1", "RELIANCE", "stock", none, 0⟩], [], []⟩)).map
                stockJson)))
          (some (stocksByStr [] (stockFavIds "u1"
            ⟨[⟨"u1", "RELIANCE", "stock", none, 0⟩], [], []⟩)).length) none,
          200⟩)) :=
  ⟨by decide, by decide,
    C8_resolve_stocks_fallback "u1"
      ⟨[⟨"u1", "RELIANCE", "stock", none, 0⟩], [], []⟩
      (by decide) (by decide)⟩

/-- The documents matching an `$in` query on distinct-id stocks are no
more numerous than the queried ids. -/
theorem length_stock_matches_le (stks : List StockDoc) (ids : List String)
    (g : String → MongoId)
    (hnd : (stks.map (fun d => d.sid)).Nodup) :
    (stks.filter (fun d => ids.any (fun i => d.sid == g i))).length ≤
      ids.length := by
  have h1 : ((stks.filter
      (fun d => ids.any (fun i => d.sid == g i))).map
        (fun d => d.sid)).Nodup :=
    hnd.sublist ((List.filter_sublist stks).map _)
  have h2 : (stks.filter (fun d => ids.any (fun i => d.sid == g i))).map
      (fun d => d.sid) ⊆ ids.map g := by
    intro x hx
    obtain ⟨d, hd, rfl⟩ := List.mem_map.mp hx
    have hf := (List.mem_filter.mp hd).2
    obtain ⟨i, hi, hbeq⟩ := List.any_eq_true.mp hf
    exact List.mem_map.mpr ⟨i, hi, (beq_iff_eq.mp hbeq).symm⟩
  have h3 := (h1.subperm h2).length_le
  simpa using h3

/-- Counterexample to claim C9: the resolved-count bound fails for funds.
A user with a single fund favorite "F1" resolves to two records when the
`fund_holdings` collection holds two dated snapshots sharing business key
"F1": the response count is 2, yet the user has only 1 fund favorite. -/
theorem C9_counterexample :
    (get_favorite_funds (some "u1") (Except.ok
      ⟨[⟨"u1", "F1", "fund", none, 0⟩], [],
        [⟨MongoId.oid "a", "F1", "2024-01-01"⟩,
         ⟨MongoId.oid "b", "F1", "2024-02-01"⟩]⟩)).1.body.count = some 2 ∧
    ((Store.favorites
      ⟨[⟨"u1", "F1", "fund", none, 0⟩], [],
        [⟨MongoId.oid "a", "F1", "2024-01-01"⟩,
         ⟨MongoId.oid "b", "F1", "2024-02-01"⟩]⟩).filter
      (fun f => f.userId == "u1" && f.itemType == "fund")).length = 1 ∧
    ¬ (2 ≤ 1) :=
  ⟨rfl, rfl, by decide⟩

/-- Claim C9 as amended: favorites whose itemId matches no Stock or Fund
document are silently excluded — both resolution reads answer with
success status 200 and a records list drawn from the matching documents
only.  For stocks (whose store `_id`s are unique) the resolved count is
at most the number of the user's stock favorites; for funds each
resolved holding document carries the business key of one of the user's
fund favorites, but the count may exceed the favorite count when several
dated snapshots share one business key. -/
theorem C9_amended_orphan_resolution (u : String) (s : Store) (hu : u ≠ "")
    (hsid : (s.stocks.map (fun d => d.sid)).Nodup) :
    (∃ rs : List StockDoc,
      (get_favorite_stocks (some u) (Except.ok s)).1.body.status =
        "success" ∧
      (get_favorite_stocks (some u) (Except.ok s)).1.code = 200 ∧
      (get_favorite_stocks (some u) (Except.ok s)).1.body.records =
        some (JVal.arr (rs.map stockJson)) ∧
      (get_favorite_stocks (some u) (Except.ok s)).1.body.count =
        some rs.length ∧
      rs.length ≤ (s.favorites.filter
        (fun f => f.userId == u && f.itemType == "stock")).length) ∧
    (∃ rs : List FundDoc,
      (get_favorite_funds (some u) (Except.ok s)).1.body.status =
        "success" ∧
      (get_favorite_funds (some u) (Except.ok s)).1.code = 200 ∧
      (get_favorite_funds (some u) (Except.ok s)).1.body.records =
        some (JVal.arr (rs.map fundJson)) ∧
      (get_favorite_funds (some u) (Except.ok s)).1.body.count =
        some rs.length ∧
      (∀ d ∈ rs, d.unique_id ∈ fundFavIds u s)) := by
  have hlen : (stockFavIds u s).length = (s.favorites.filter
      (fun f => f.userId == u && f.itemType == "stock")).length :=
    List.length_map _ _
  constructor
  · by_cases hempty : (stockFavIds u s).isEmpty = true
    · refine ⟨[], ?_⟩
      simp only [get_favorite_stocks]
      rw [if_neg hu]
      simp [hempty, make_response]
    · have hemptyF : (stockFavIds u s).isEmpty = false := by
        cases h : (stockFavIds u s).isEmpty
        · rfl
        · exact absurd h hempty
      by_cases hall : (stockFavIds u s).all isValidObjectId = true
      · refine ⟨stocksByOid s.stocks (stockFavIds u s), ?_⟩
        have hb := length_stock_matches_le s.stocks (stockFavIds u s)
          MongoId.oid hsid
        simp only [get_favorite_stocks]
        rw [if_neg hu]
        simp only [hemptyF, Bool.false_eq_true, if_false, hall, if_true,
          make_response]
        refine ⟨by trivial, by trivial, by trivial, by trivial, ?_⟩
        rw [← hlen]
        exact hb
      · have hallF : (stockFavIds u s).all isValidObjectId = false := by
          cases h : (stockFavIds u s).all isValidObjectId
          · rfl
          · exact absurd h hall
        refine ⟨stocksByStr s.stocks (stockFavIds u s), ?_⟩
        have hb := length_stock_matches_le s.stocks (stockFavIds u s)
          MongoId.strId hsid
        simp only [get_favorite_stocks]
        rw [if_neg hu]
        simp only [hemptyF, Bool.false_eq_true, if_false, hallF,
          make_response]
        refine ⟨by trivial, by trivial, by trivial, by trivial, ?_⟩
        rw [← hlen]
        exact hb
  · by_cases hempty : (fundFavIds u s).isEmpty = true
    · refine ⟨[], ?_⟩
      simp only [get_favorite_funds]
      rw [if_neg hu]
      simp [hempty, make_response]
    · have hemptyF : (fundFavIds u s).isEmpty = false := by
        cases h : (fundFavIds u s).isEmpty
        · rfl
        · exact absurd h hempty
      refine ⟨fundsByUid s.fund_holdings (fundFavIds u s),
        ?_, ?_, ?_, ?_, ?_⟩
      · simp only [get_favorite_funds]
        rw [if_neg hu]
        simp [hemptyF, make_response]
      · simp only [get_favorite_funds]
        rw [if_neg hu]
        simp [hemptyF, make_response]
      · simp only [get_favorite_funds]
        rw [if_neg hu]
        simp [hemptyF, make_response]
      · simp only [get_favorite_funds]
        rw [if_neg hu]
        simp [hemptyF, make_response]
      · intro d hd
        simp only [fundsByUid] at hd
        have hf := (List.mem_filter.mp hd).2
        obtain ⟨i, hi, hbeq⟩ := List.any_eq_true.mp hf
        have : d.unique_id = i := beq_iff_eq.mp hbeq
        rw [this]
        exact hi

/-- Witness for the amended C9 at a concrete input: one stock favorite
resolving to one document, one orphan fund favorite resolving to none. -/
theorem C9_amended_orphan_resolution_witness :
    ("u1" : String) ≠ "" ∧
    ((Store.stocks ⟨[⟨"u1", "RELIANCE", "stock", none, 0⟩,
        ⟨"u1", "GONE", "fund", none, 1⟩],
      [⟨MongoId.strId "RELIANCE", "Reliance"⟩], []⟩).map
        (fun d => d.sid)).Nodup ∧
    ((∃ rs : List StockDoc,
      (get_favorite_stocks (some "u1") (Except.ok
        ⟨[⟨"u1", "RELIANCE", "stock", none, 0⟩, ⟨"u1", "GONE", "fund", none, 1⟩],
          [⟨MongoId.strId "RELIANCE", "Reliance"⟩], []⟩)).1.body.status =
        "success" ∧
      (get_favorite_stocks (some "u1") (Except.ok
        ⟨[⟨"u1", "RELIANCE", "stock", none, 0⟩, ⟨"u1", "GONE", "fund", none, 1⟩],
          [⟨MongoId.strId "RELIANCE", "Reliance"⟩], []⟩)).1.code = 200 ∧
      (get_favorite_stocks (some "u1") (Except.ok
        ⟨[⟨"u1", "RELIANCE", "stock", none, 0⟩, ⟨"u1", "GONE", "fund", none, 1⟩],
          [⟨MongoId.strId "RELIANCE", "Reliance"⟩], []⟩)).1.body.records =
        some (JVal.arr (rs.map stockJson)) ∧
      (get_favorite_stocks (some "u1") (Except.ok
        ⟨[⟨"u1", "RELIANCE", "stock", none, 0⟩, ⟨"u1", "GONE", "fund", none, 1⟩],
          [⟨MongoId.strId "RELIANCE", "Reliance"⟩], []⟩)).1.body.count =
        some rs.length ∧
      rs.length ≤ ((Store.favorites
        ⟨[⟨"u1", "RELIANCE", "stock", none, 0⟩, ⟨"u1", "GONE", "fund", none, 1⟩],
          [⟨MongoId.strId "RELIANCE", "Reliance"⟩], []⟩).filter
        (fun f => f.userId == "u1" && f.itemType == "stock")).length) ∧
    (∃ rs : List FundDoc,
      (get_favorite_funds (some "u1") (Except.ok
        ⟨[⟨"u1", "RELIANCE", "stock", none, 0⟩, ⟨"u1", "GONE", "fund", none, 1⟩],
          [⟨MongoId.strId "RELIANCE", "Reliance"⟩], []⟩)).1.body.status =
        "success" ∧
      (get_favorite_funds (some "u1") (Except.ok
        ⟨[⟨"u1", "RELIANCE", "stock", none, 0⟩, ⟨"u1", "GONE", "fund", none, 1⟩],
          [⟨MongoId.strId "RELIANCE", "Reliance"⟩], []⟩)).1.code = 200 ∧
      (get_favorite_funds (some "u1") (Except.ok
        ⟨[⟨"u1", "RELIANCE", "stock", none, 0⟩, ⟨"u1", "GONE", "fund", none, 1⟩],
          [⟨MongoId.strId "RELIANCE", "Reliance"⟩], []⟩)).1.body.records =
        some (JVal.arr (rs.map fundJson)) ∧
      (get_favorite_funds (some "u1") (Except.ok
        ⟨[⟨"u1", "RELIANCE", "stock", none, 0⟩, ⟨"u1", "GONE", "fund", none, 1⟩],
          [⟨MongoId.strId "RELIANCE", "Reliance"⟩], []⟩)).1.body.count =
        some rs.length ∧
      (∀ d ∈ rs, d.unique_id ∈ fundFavIds "u1"
        ⟨[⟨"u1", "RELIANCE", "stock", none, 0⟩, ⟨"u1", "GONE", "fund", none, 1⟩],
          [⟨MongoId.strId "RELIANCE", "Reliance"⟩], []⟩))) :=
  ⟨by decide, by decide,
    C9_amended_orphan_resolution "u1"
      ⟨[⟨"u1", "RELIANCE", "stock", none, 0⟩, ⟨"u1", "GONE", "fund", none, 1⟩],
        [⟨MongoId.strId "RELIANCE", "Reliance"⟩], []⟩
      (by decide) (by decide)⟩

/-- The list left by `delete_one` is a sublist of the original. -/
theorem deleteOne_sublist (p : Favorite → Bool) (l : List Favorite) :
    ((deleteOne p l).1).Sublist l := by
  induction l with
  | nil => simp [deleteOne]
  | cons f rest ih =>
    simp only [deleteOne]
    split
    · exact List.sublist_cons_self f rest
    · exact List.Sublist.cons₂ f ih

/-- `delete_one` on a filter with no match deletes nothing. -/
theorem deleteOne_of_forall_not (p : Favorite → Bool) (l : List Favorite)
    (h : ∀ x ∈ l, ¬ p x = true) : deleteOne p l = (l, 0) := by
  induction l with
  | nil => rfl
  | cons f rest ih =>
    have hf : p f = false := by
      cases hp : p f
      · rfl
      · exact absurd hp (h f (List.mem_cons_self f rest))
    simp only [deleteOne, hf, Bool.false_eq_true, if_false]
    rw [ih (fun x hx => h x (List.mem_cons_of_mem f hx))]

/-- A positive `deleted_count` exhibits a matching document. -/
theorem deleteOne_exists_of_count_pos (p : Favorite → Bool)
    (l : List Favorite) (h : (deleteOne p l).2 ≠ 0) :
    ∃ f ∈ l, p f = true := by
  by_contra hno
  push_neg at hno
  exact h (by rw [deleteOne_of_forall_not p l hno])

/-- The triple filter holds exactly on favorites with that key triple. -/
theorem matchesTriple_iff (u i t : String) (f : Favorite) :
    matchesTriple u i t f = true ↔ tripleKey f = (u, i, t) := by
  simp [matchesTriple, tripleKey, Prod.ext_iff, and_assoc]

/-- Under the uniqueness invariant, deleting the (at most one) match of a
triple leaves no match behind. -/
theorem deleteOne_find?_none_of_nodup (u i t : String) (l : List Favorite)
    (hnd : (l.map tripleKey).Nodup) :
    ((deleteOne (matchesTriple u i t) l).1).find? (matchesTriple u i t)
      = none := by
  induction l with
  | nil => rfl
  | cons f rest ih =>
    simp only [List.map_cons, List.nodup_cons] at hnd
    obtain ⟨hfk, hrest⟩ := hnd
    simp only [deleteOne]
    cases hp : matchesTriple u i t f with
    | false =>
      simp only [Bool.false_eq_true, if_false]
      rw [List.find?_cons_of_neg _ (by simp [hp])]
      exact ih hrest
    | true =>
      simp only [eq_self_iff_true, if_true]
      rw [List.find?_eq_none]
      intro x hx hpx
      apply hfk
      have hx1 := (matchesTriple_iff u i t x).mp hpx
      have hf1 := (matchesTriple_iff u i t f).mp hp
      rw [hf1, ← hx1]
      exact List.mem_map.mpr ⟨x, hx, rfl⟩

/-- Listing favorites never changes the store. -/
theorem get_favorites_ok_store (u t : Option String) (s : Store) :
    (get_favorites u t (Except.ok s)).2 = Except.ok s := by
  cases u with
  | none => rfl
  | some x =>
    by_cases hx : x = ""
    · simp [get_favorites, hx]
    · simp [get_favorites, hx]

/-- Resolving favorite stocks never changes the store. -/
theorem get_favorite_stocks_ok_store (u : Option String) (s : Store) :
    (get_favorite_stocks u (Except.ok s)).2 = Except.ok s := by
  cases u with
  | none => rfl
  | some x =>
    by_cases hx : x = ""
    · simp [get_favorite_stocks, hx]
    · simp only [get_favorite_stocks]
      rw [if_neg hx]
      split
      · rfl
      · rfl

/-- Resolving favorite funds never changes the store. -/
theorem get_favorite_funds_ok_store (u : Option String) (s : Store) :
    (get_favorite_funds u (Except.ok s)).2 = Except.ok s := by
  cases u with
  | none => rfl
  | some x =>
    by_cases hx : x = ""
    · simp [get_favorite_funds, hx]
    · simp only [get_favorite_funds]
      rw [if_neg hx]
      split
      · rfl
      · rfl

/-- The REST remove either leaves the store alone or applies one
`delete_one` to the favorites collection. -/
theorem remove_favorite_ok_store (i : String) (u t : Option String)
    (s : Store) :
    (remove_favorite i u t (Except.ok s)).2 = Except.ok s ∨
    ∃ p, (remove_favorite i u t (Except.ok s)).2 =
      Except.ok { s with favorites := (deleteOne p s.favorites).1 } := by
  cases u with
  | none => left; rfl
  | some x =>
    cases t with
    | none => left; rfl
    | some y =>
      by_cases hx : x = ""
      · left; simp [remove_favorite, hx]
      · by_cases hy : y = ""
        · left; simp [remove_favorite, hy]
        · right
          refine ⟨matchesTriple x i y, ?_⟩
          simp only [remove_favorite]
          rw [if_neg (by simp [hx, hy])]
          split
          · rfl
          · rfl

/-- The RPC remove either leaves the store alone or applies one
`delete_one` to the favorites collection. -/
theorem remove_favorite_rpc_ok_store (q : RemoveFavoritePayload)
    (s : Store) :
    (remove_favorite_rpc q (Except.ok s)).2 = Except.ok s ∨
    ∃ p, (remove_favorite_rpc q (Except.ok s)).2 =
      Except.ok { s with favorites := (deleteOne p s.favorites).1 } := by
  cases hv : validateRemoveFavorite q with
  | error errs => left; simp only [remove_favorite_rpc, hv]
  | ok vd =>
    right
    refine ⟨matchesTriple vd.userId vd.itemId vd.itemType, ?_⟩
    simp only [remove_favorite_rpc, hv]
    split
    · rfl
    · rfl

/-- AddFavorite preserves the triple-uniqueness invariant: it inserts
only after `find_one` reports no record with the same triple. -/
theorem add_favorite_preserves_unique (p : AddFavoritePayload) (now : Nat)
    (s : Store) (h : UniqueTriples s) :
    UniqueTriples (storeOf (add_favorite p now (Except.ok s)).2 s) := by
  cases hv : validateAddFavorite p with
  | error errs =>
    simp only [add_favorite, hv, storeOf]
    exact h
  | ok vd =>
    cases hf : s.favorites.find?
        (matchesTriple vd.userId vd.itemId vd.itemType) with
    | some f =>
      simp only [add_favorite, hv, hf, storeOf]
      exact h
    | none =>
      simp only [add_favorite, hv, hf, storeOf]
      unfold UniqueTriples at h ⊢
      simp only [List.map_append, List.map_cons, List.map_nil]
      rw [List.nodup_append]
      refine ⟨h, List.nodup_singleton _, ?_⟩
      intro a ha hb
      simp only [List.mem_singleton] at hb
      subst hb
      obtain ⟨f, hfmem, hfk⟩ := List.mem_map.mp ha
      exact List.find?_eq_none.mp hf f hfmem
        ((matchesTriple_iff _ _ _ f).mpr (by rw [hfk]; rfl))

/-- Every favorites operation preserves the triple-uniqueness invariant. -/
theorem stepOp_preserves_unique (s : Store) (op : FavOp)
    (h : UniqueTriples s) : UniqueTriples (stepOp s op) := by
  cases op with
  | addOp p now => exact add_favorite_preserves_unique p now s h
  | removeRestOp i u t =>
    rcases remove_favorite_ok_store i u t s with h2 | ⟨pr, h2⟩
    · simp only [stepOp, h2, storeOf]
      exact h
    · simp only [stepOp, h2, storeOf]
      unfold UniqueTriples at h ⊢
      exact h.sublist ((deleteOne_sublist pr s.favorites).map _)
  | removeRpcOp q =>
    rcases remove_favorite_rpc_ok_store q s with h2 | ⟨pr, h2⟩
    · simp only [stepOp, h2, storeOf]
      exact h
    · simp only [stepOp, h2, storeOf]
      unfold UniqueTriples at h ⊢
      exact h.sublist ((deleteOne_sublist pr s.favorites).map _)
  | listOp u t =>
    simp only [stepOp, get_favorites_ok_store, storeOf]
    exact h
  | resolveStocksOp u =>
    simp only [stepOp, get_favorite_stocks_ok_store, storeOf]
    exact h
  | resolveFundsOp u =>
    simp only [stepOp, get_favorite_funds_ok_store, storeOf]
    exact h

/-- The invariant carries over any sequence of favorites operations. -/
theorem execOps_preserves_unique (ops : List FavOp) (s : Store)
    (h : UniqueTriples s) : UniqueTriples (execOps s ops) := by
  induction ops generalizing s with
  | nil => exact h
  | cons op rest ih => exact ih (stepOp s op) (stepOp_preserves_unique s op h)

/-- Under the uniqueness invariant at most one favorite matches a triple. -/
theorem count_matching_le_one (u i t : String) (l : List Favorite)
    (hnd : (l.map tripleKey).Nodup) :
    (l.filter (matchesTriple u i t)).length ≤ 1 := by
  rcases hfl : l.filter (matchesTriple u i t) with _ | ⟨a, _ | ⟨b, rest⟩⟩
  · simp
  · simp
  · exfalso
    have hsub : ((a :: b :: rest).map tripleKey).Nodup := by
      rw [← hfl]
      exact hnd.sublist ((List.filter_sublist l).map _)
    have ha : matchesTriple u i t a = true := by
      have hm : a ∈ l.filter (matchesTriple u i t) := by rw [hfl]; simp
      exact (List.mem_filter.mp hm).2
    have hb : matchesTriple u i t b = true := by
      have hm : b ∈ l.filter (matchesTriple u i t) := by rw [hfl]; simp
      exact (List.mem_filter.mp hm).2
    have hab : tripleKey a = tripleKey b := by
      rw [(matchesTriple_iff u i t a).mp ha, (matchesTriple_iff u i t b).mp hb]
    simp only [List.map_cons, List.nodup_cons, List.mem_cons] at hsub
    exact hsub.1 (Or.inl hab)

/-- Claim C2: in every state reachable by sequentially executing the
favorites operations (AddFavorite, RemoveFavorite in both styles,
ListFavorites and the resolution reads) from an empty favorites
collection, at most one Favorite record exists for any triple
(userId, itemId, itemType). -/
theorem C2_reachable_unique_triples (stks : List StockDoc)
    (fnds : List FundDoc) (ops : List FavOp) (u i t : String) :
    ((execOps ⟨[], stks, fnds⟩ ops).favorites.filter
      (matchesTriple u i t)).length ≤ 1 :=
  count_matching_le_one u i t _
    (execOps_preserves_unique ops ⟨[], stks, fnds⟩ (by simp [UniqueTriples]))

/-- A partition entry whose `id` field equals `i`. -/
def entryHasId (i : String) : JVal → Prop
  | JVal.obj l => ("id", JVal.str i) ∈ l
  | _ => False

/-- A partition entry built from a favorite carries exactly its itemId. -/
theorem entryHasId_favEntry (i : String) (f : Favorite)
    (h : entryHasId i (favEntry f)) : i = f.itemId := by
  have h2 : ("id", JVal.str i) ∈
      [("id", JVal.str f.itemId),
       ("name", JVal.str (f.itemName.getD ""))] := h
  rcases List.mem_cons.mp h2 with h3 | h3
  · exact JVal.str.inj (congrArg Prod.snd h3)
  · rcases List.mem_cons.mp h3 with h4 | h4
    · have h5 : ("id" : String) = "name" := congrArg Prod.fst h4
      exact absurd h5 (by decide)
    · exact absurd h4 (List.not_mem_nil _)

/-- Counterexample to claim C3: the user favorited the same itemId "x1"
both as a stock and as a fund.  RemoveFavorite on ("u1", "x1", "stock")
succeeds with "Removed", yet the subsequent ListFavorites still contains
an entry with itemId "x1" — in the funds partition — so the removed
itemId does not disappear from both partitions. -/
theorem C3_counterexample :
    (remove_favorite "x1" (some "u1") (some "stock") (Except.ok
      ⟨[⟨"u1", "x1", "stock", some "A", 0⟩,
        ⟨"u1", "x1", "fund", some "B", 0⟩], [], []⟩)).1.body.message =
      "Removed" ∧
    (remove_favorite "x1" (some "u1") (some "stock") (Except.ok
      ⟨[⟨"u1", "x1", "stock", some "A", 0⟩,
        ⟨"u1", "x1", "fund", some "B", 0⟩], [], []⟩)).2 =
      Except.ok ⟨[⟨"u1", "x1", "fund", some "B", 0⟩], [], []⟩ ∧
    (get_favorites (some "u1") none (Except.ok
      ⟨[⟨"u1", "x1", "fund", some "B", 0⟩], [], []⟩)).1.body.data =
      some (JVal.obj [("stocks", JVal.arr []),
        ("funds", JVal.arr [JVal.obj [("id", JVal.str "x1"),
          ("name", JVal.str "B")]])]) ∧
    entryHasId "x1" (JVal.obj [("id", JVal.str "x1"),
      ("name", JVal.str "B")]) :=
  ⟨rfl, rfl, rfl, List.mem_cons_self _ _⟩

/-- Claim C3 as amended: in a store satisfying the triple-uniqueness
invariant whose favorites all carry itemType "stock" or "fund", after
RemoveFavorite succeeds on a triple (message "Removed"), a subsequent
ListFavorites for that user contains no entry with that itemId in the
partition corresponding to the removed itemType (the same itemId may
survive in the other partition under the other type), and a second
RemoveFavorite on the same triple returns the not-found failure outcome
(404, "Favorite not found"). -/
theorem C3_amended_remove_then_absent (u i t : String) (s : Store)
    (hu : u ≠ "")
    (htypes : ∀ f ∈ s.favorites, f.itemType = "stock" ∨ f.itemType = "fund")
    (hnd : UniqueTriples s)
    (hrm : (remove_favorite i (some u) (some t) (Except.ok s)).1.body.message
      = "Removed") :
    ∃ s1 : Store,
      (remove_favorite i (some u) (some t) (Except.ok s)).2 =
        Except.ok s1 ∧
      (∃ SL FL : List JVal,
        (get_favorites (some u) none (Except.ok s1)).1.body.data =
          some (JVal.obj [("stocks", JVal.arr SL), ("funds", JVal.arr FL)]) ∧
        ∀ e ∈ (if t = "stock" then SL else FL), ¬ entryHasId i e) ∧
      (remove_favorite i (some u) (some t) (Except.ok s1)).1 =
        ⟨make_response "error" "Favorite not found" none none none, 404⟩ := by
  by_cases ht0 : t = ""
  · exfalso
    simp only [remove_favorite] at hrm
    rw [if_pos (by simp [ht0])] at hrm
    have hrm2 : ("userId and type required" : String) = "Removed" := hrm
    exact absurd hrm2 (by decide)
  by_cases h0 : (deleteOne (matchesTriple u i t) s.favorites).2 = 0
  · exfalso
    simp only [remove_favorite] at hrm
    rw [if_neg (by simp [hu, ht0])] at hrm
    rw [if_pos h0] at hrm
    have hrm2 : ("Favorite not found" : String) = "Removed" := hrm
    exact absurd hrm2 (by decide)
  obtain ⟨f0, hf0mem, hf0⟩ :=
    deleteOne_exists_of_count_pos (matchesTriple u i t) s.favorites h0
  have hkey0 := (matchesTriple_iff u i t f0).mp hf0
  have ht3 : f0.itemType = t := congrArg (fun x => x.2.2) hkey0
  have hfind1 :
      ((deleteOne (matchesTriple u i t) s.favorites).1).find?
        (matchesTriple u i t) = none :=
    deleteOne_find?_none_of_nodup u i t s.favorites hnd
  refine ⟨{ s with favorites := (deleteOne (matchesTriple u i t)
      s.favorites).1 }, ?_, ?_, ?_⟩
  · simp only [remove_favorite]
    rw [if_neg (by simp [hu, ht0])]
    rw [if_neg h0]
  · refine ⟨((((deleteOne (matchesTriple u i t) s.favorites).1).filter
        (getFavoritesFilter u none)).filter
        (fun f => f.itemType == "stock")).map favEntry,
      ((((deleteOne (matchesTriple u i t) s.favorites).1).filter
        (getFavoritesFilter u none)).filter
        (fun f => !(f.itemType == "stock"))).map favEntry, ?_, ?_⟩
    · simp only [get_favorites]
      rw [if_neg hu]
      rfl
    · intro e he hid
      by_cases hts : t = "stock"
      · rw [if_pos hts] at he
        obtain ⟨f, hfmem, hfe⟩ := List.mem_map.mp he
        subst hfe
        obtain ⟨hf2, hftype⟩ := List.mem_filter.mp hfmem
        obtain ⟨hf3, hfu⟩ := List.mem_filter.mp hf2
        have hfu2 : f.userId = u := by
          simpa [getFavoritesFilter] using hfu
        have hfi : f.itemId = i := (entryHasId_favEntry i f hid).symm
        have hft : f.itemType = t := by
          rw [hts]
          exact beq_iff_eq.mp hftype
        exact List.find?_eq_none.mp hfind1 f hf3
          ((matchesTriple_iff u i t f).mpr
            (by simp [tripleKey, hfu2, hfi, hft]))
      · rw [if_neg hts] at he
        obtain ⟨f, hfmem, hfe⟩ := List.mem_map.mp he
        subst hfe
        obtain ⟨hf2, hftype⟩ := List.mem_filter.mp hfmem
        obtain ⟨hf3, hfu⟩ := List.mem_filter.mp hf2
        have hfu2 : f.userId = u := by
          simpa [getFavoritesFilter] using hfu
        have hfi : f.itemId = i := (entryHasId_favEntry i f hid).symm
        have hfs : f ∈ s.favorites :=
          (deleteOne_sublist (matchesTriple u i t) s.favorites).subset hf3
        have hfns : ¬(f.itemType = "stock") := by
          intro hcon
          rw [hcon] at hftype
          simp at hftype
        have hft : f.itemType = t := by
          have htf : t = "fund" := by
            rcases htypes f0 hf0mem with h4 | h4
            · exact absurd (ht3.symm.trans h4) hts
            · exact ht3.symm.trans h4
          rcases htypes f hfs with h5 | h5
          · exact absurd h5 hfns
          · rw [h5, htf]
        exact List.find?_eq_none.mp hfind1 f hf3
          ((matchesTriple_iff u i t f).mpr
            (by simp [tripleKey, hfu2, hfi, hft]))
  · have hd2 : deleteOne (matchesTriple u i t)
        (deleteOne (matchesTriple u i t) s.favorites).1 =
        ((deleteOne (matchesTriple u i t) s.favorites).1, 0) :=
      deleteOne_of_forall_not _ _ (List.find?_eq_none.mp hfind1)
    simp only [remove_favorite]
    rw [if_neg (by simp [hu, ht0])]
    rw [hd2]
    simp

/-- Witness for the amended C3 at a concrete input. -/
theorem C3_amended_remove_then_absent_witness :
    ("u1" : String) ≠ "" ∧
    (∀ f ∈ (Store.favorites ⟨[⟨"u1", "x1", "stock", some "A", 0⟩], [], []⟩),
      f.itemType = "stock" ∨ f.itemType = "fund") ∧
    UniqueTriples ⟨[⟨"u1", "x1", "stock", some "A", 0⟩], [], []⟩ ∧
    (remove_favorite "x1" (some "u1") (some "stock") (Except.ok
      ⟨[⟨"u1", "x1", "stock", some "A", 0⟩], [], []⟩)).1.body.message =
      "Removed" ∧
    (∃ s1 : Store,
      (remove_favorite "x1" (some "u1") (some "stock") (Except.ok
        ⟨[⟨"u1", "x1", "stock", some "A", 0⟩], [], []⟩)).2 =
        Except.ok s1 ∧
      (∃ SL FL : List JVal,
        (get_favorites (some "u1") none (Except.ok s1)).1.body.data =
          some (JVal.obj [("stocks", JVal.arr SL), ("funds", JVal.arr FL)]) ∧
        ∀ e ∈ (if ("stock" : String) = "stock" then SL else FL),
          ¬ entryHasId "x1" e) ∧
      (remove_favorite "x1" (some "u1") (some "stock") (Except.ok s1)).1 =
        ⟨make_response "error" "Favorite not found" none none none, 404⟩) :=
  ⟨by decide, by decide, by simp [UniqueTriples], rfl,
    C3_amended_remove_then_absent "u1" "x1" "stock"
      ⟨[⟨"u1", "x1", "stock", some "A", 0⟩], [], []⟩
      (by decide) (by decide) (by simp [UniqueTriples]) rfl⟩

end MfApi
